import Mathlib

/-!
Shallow embedding of the Tic Tac Toe backend engine
(`src/tic_tac_toe_backend/src/api/main.py`).

The Python service keeps a dictionary `GAMES` from game-id strings to game
states and exposes handlers `create_game`, `get_game`, `make_move` and
`reset_game`.  The engine logic lives in `_calculate_winner`, `_is_draw`
and the body of `make_move`.  We model:

  * a mark (`PLAYER = Literal["X", "O"]`) as the inductive type `Mark`;
  * the board (a Python list of 9 cells, each `None`/`"X"`/`"O"`, its
    length enforced by the `validate_board_len` validator) as a function
    `Fin 9 → Option Mark`;
  * the pydantic `GameState` model as a structure;
  * each `raise HTTPException` as a constructor of `MoveError`;
  * the store `GAMES` as a function `String → Option GameState`; a handler
    returns its result together with the (possibly updated) store, since
    the Python code writes `GAMES[game_id] = game.dict()` only on the
    success path.
-/

/-- A player mark: the Python `Literal["X", "O"]`. -/
inductive Mark where
  | X : Mark
  | O : Mark
deriving DecidableEq

/-- The board: 9 cells, each empty (`none`) or holding a mark.  The Python
`board` is a list of 9 `Optional[PLAYER]` entries, row-major. -/
def Board : Type := Fin 9 → Option Mark

instance : DecidableEq Board := by
  unfold Board
  infer_instance

/-- The pydantic `GameState` model from `main.py`. -/
structure GameState where
  game_id : String
  board : Board
  current_player : Mark
  winner : Option Mark
  is_draw : Bool
  moves_count : Nat

/-- The error conditions raised by the handlers in `main.py`:
404 game not found, 409 already finished, 400 wrong turn, 400 occupied
cell, and the pydantic `ge=0, le=8` bound on `MoveRequest.position`. -/
inductive MoveError where
  | NotFound : MoveError
  | AlreadyFinished : MoveError
  | WrongTurn : MoveError
  | CellOccupied : MoveError
  | OutOfRange : MoveError
deriving DecidableEq

/-- The 8 winning lines of `_calculate_winner`: 3 rows, 3 columns, the two
diagonals, in the source order. -/
def win_lines : List (Fin 9 × Fin 9 × Fin 9) :=
  [(0, 1, 2), (3, 4, 5), (6, 7, 8),
   (0, 3, 6), (1, 4, 7), (2, 5, 8),
   (0, 4, 8), (2, 4, 6)]

/-- One iteration of the loop in `_calculate_winner`:
`if board[a] and board[a] == board[b] and board[b] == board[c]: return board[a]`.
A cell is truthy exactly when it is not `None`. -/
def line_check (board : Board) (l : Fin 9 × Fin 9 × Fin 9) : Option Mark :=
  if (board l.1).isSome ∧ board l.1 = board l.2.1 ∧ board l.2.1 = board l.2.2
  then board l.1 else none

/-- `_calculate_winner` from `main.py`: return the mark of the first
winning line whose three cells are non-empty and identical, else `None`. -/
def _calculate_winner (board : Board) : Option Mark :=
  win_lines.findSome? (line_check board)

/-- `_is_draw` from `main.py`: `all(cell is not None for cell in board)`. -/
def _is_draw (board : Board) : Bool :=
  (List.finRange 9).all (fun i => (board i).isSome)

/-- Body of the `create_game` handler: a fresh `GameState` with an empty
board, the requested first player, no winner, no draw, zero moves. -/
def create_game (game_id : String) (first_player : Mark) : GameState :=
  { game_id := game_id
    board := fun _ => none
    current_player := first_player
    winner := none
    is_draw := false
    moves_count := 0 }

/-- The engine part of the `make_move` handler (after `_require_game` and
the pydantic bound on `position`): validate, then place the mark, bump
`moves_count`, and settle winner / draw / turn, exactly as lines 192-218
of `main.py`. -/
def make_move (game : GameState) (position : Fin 9) (player : Mark) :
    Except MoveError GameState :=
  if game.winner.isSome || game.is_draw then
    .error .AlreadyFinished
  else if player ≠ game.current_player then
    .error .WrongTurn
  else if (game.board position).isSome then
    .error .CellOccupied
  else
    match _calculate_winner (Function.update game.board position (some player)) with
    | some w =>
        .ok { game with
                board := Function.update game.board position (some player)
                moves_count := game.moves_count + 1
                winner := some w
                is_draw := false }
    | none =>
        .ok { game with
                board := Function.update game.board position (some player)
                moves_count := game.moves_count + 1
                is_draw := _is_draw (Function.update game.board position (some player))
                current_player :=
                  if _is_draw (Function.update game.board position (some player))
                  then game.current_player
                  else if game.current_player = Mark.X then Mark.O else Mark.X }

/-- Body of the `reset_game` handler: empty board, `current_player = "X"`,
winner cleared, draw cleared, `moves_count = 0`; the id is kept. -/
def reset_game (game : GameState) : GameState :=
  { game with
      board := fun _ => none
      current_player := Mark.X
      winner := none
      is_draw := false
      moves_count := 0 }

/-- The `GAMES` dictionary: game-id strings to stored game states. -/
def Store : Type := String → Option GameState

/-- `GAMES[game_id] = game.dict()`. -/
def Store.put (s : Store) (game_id : String) (g : GameState) : Store :=
  fun k => if k = game_id then some g else s k

/-- The validated `MoveRequest` body: `position` already within `0..8`. -/
structure MoveRequest where
  position : Fin 9
  player : Mark

/-- The pydantic boundary validation of `MoveRequest`
(`position: int = Field(..., ge=0, le=8)`): an out-of-bounds position is
rejected before the handler body runs. -/
def parse_move (position : Int) (player : Mark) : Except MoveError MoveRequest :=
  if h : 0 ≤ position ∧ position ≤ 8 then
    .ok ⟨⟨position.toNat, by omega⟩, player⟩
  else
    .error .OutOfRange

/-- The `make_move` handler over the store: `_require_game` (404 if the id
is unknown), then the engine step, then `GAMES[game_id] = game.dict()` on
success only. -/
def handle_move (games : Store) (game_id : String) (req : MoveRequest) :
    Except MoveError GameState × Store :=
  match games game_id with
  | none => (.error .NotFound, games)
  | some game =>
      match make_move game req.position req.player with
      | .error e => (.error e, games)
      | .ok g1 => (.ok g1, games.put game_id g1)

/-- The full move endpoint: pydantic validation of the body, then the
handler.  An invalid position never reaches the store or the engine. -/
def api_make_move (games : Store) (game_id : String)
    (position : Int) (player : Mark) :
    Except MoveError GameState × Store :=
  match parse_move position player with
  | .error e => (.error e, games)
  | .ok req => handle_move games game_id req

/-- The HTTP status attached to each failure.  `404`, `409`, `400`, `400`
are the `HTTPException` codes in `main.py`.  Modelled from the spec: the
status of an out-of-range position (produced by the FastAPI validation
layer, outside this repository) — the spec's endpoint table files it with
wrong turn and occupied cell under 400. -/
def status_code (e : MoveError) : Nat :=
  match e with
  | .NotFound => 404
  | .AlreadyFinished => 409
  | .WrongTurn => 400
  | .CellOccupied => 400
  | .OutOfRange => 400

/-- A game is terminal when a winner is set or the game is drawn. -/
def GameState.terminal (g : GameState) : Prop :=
  g.winner.isSome ∨ g.is_draw

instance (g : GameState) : Decidable g.terminal := by
  unfold GameState.terminal
  infer_instance

/-- Number of non-empty cells of a board. -/
def count_marks (b : Board) : Nat :=
  (Finset.univ.filter (fun i : Fin 9 => (b i).isSome = true)).card

/-- States reachable from a fresh game by accepted moves and resets. -/
inductive Reachable : GameState → Prop where
  | create (game_id : String) (first_player : Mark) :
      Reachable (create_game game_id first_player)
  | move {g g1 : GameState} {pos : Fin 9} {p : Mark} :
      Reachable g → make_move g pos p = .ok g1 → Reachable g1
  | reset {g : GameState} :
      Reachable g → Reachable (reset_game g)

/-- Fold a list of `(position, player)` moves through `make_move`. -/
def apply_moves (g : GameState) (ms : List (Fin 9 × Mark)) :
    Except MoveError GameState :=
  match ms with
  | [] => .ok g
  | m :: rest => do
      let g1 ← make_move g m.1 m.2
      apply_moves g1 rest

/-- A line is complete when its three cells hold the same mark. -/
def line_complete (b : Board) (l : Fin 9 × Fin 9 × Fin 9) : Prop :=
  ∃ m, b l.1 = some m ∧ b l.2.1 = some m ∧ b l.2.2 = some m

/-- The nine-move sequence of the spec's draw scenario:
X:0, O:1, X:2, O:3, X:4, O:5, X:7, O:6, X:8. -/
def draw_sequence : List (Fin 9 × Mark) :=
  [(0, Mark.X), (1, Mark.O), (2, Mark.X), (3, Mark.O), (4, Mark.X),
   (5, Mark.O), (7, Mark.X), (6, Mark.O), (8, Mark.X)]

/-- A mid-game position: X on cells 0 and 1, O on cells 3 and 4, X to
move.  Playing X at cell 2 completes the top row. -/
def ex_game : GameState :=
  { game_id := "g1"
    board := fun i =>
      if i = 0 ∨ i = 1 then some Mark.X
      else if i = 3 ∨ i = 4 then some Mark.O
      else none
    current_player := Mark.X
    winner := none
    is_draw := false
    moves_count := 4 }

/-- The state reached from `ex_game` by the accepted winning move X at
cell 2. -/
def ex_game_won : GameState :=
  { ex_game with
      board := Function.update ex_game.board 2 (some Mark.X)
      moves_count := ex_game.moves_count + 1
      winner := some Mark.X
      is_draw := false }

/-- The state reached from a fresh game (first player X) by the accepted
move X at cell 0. -/
def ex_first_move : GameState :=
  { game_id := "w5"
    board := Function.update (fun _ => none) 0 (some Mark.X)
    current_player := Mark.O
    winner := none
    is_draw := false
    moves_count := 1 }

/-- A store holding the non-terminal position `ex_game` under every id. -/
def ex_store_mid : Store := fun _ => some ex_game

/-- A store holding the finished game `ex_game_won` under every id. -/
def ex_store_won : Store := fun _ => some ex_game_won

/-- The empty store. -/
def empty_store : Store := fun _ => none

/-! Helper lemmas about the engine functions. -/

lemma line_check_eq_some {b : Board} {l : Fin 9 × Fin 9 × Fin 9} {m : Mark} :
    line_check b l = some m ↔
      b l.1 = some m ∧ b l.2.1 = some m ∧ b l.2.2 = some m := by
  unfold line_check
  split
  next hand =>
    obtain ⟨hs, h12, h23⟩ := hand
    constructor
    · intro h1
      refine ⟨h1, ?_, ?_⟩
      · rw [← h12]; exact h1
      · rw [← h23, ← h12]; exact h1
    · rintro ⟨h1, -, -⟩
      exact h1
  next hand =>
    constructor
    · intro h; cases h
    · rintro ⟨h1, h2, h3⟩
      refine absurd ⟨?_, ?_, ?_⟩ hand
      · rw [h1]; rfl
      · rw [h1, h2]
      · rw [h2, h3]

lemma line_check_isSome {b : Board} {l : Fin 9 × Fin 9 × Fin 9} :
    (line_check b l).isSome = true ↔ line_complete b l := by
  rw [Option.isSome_iff_exists]
  unfold line_complete
  constructor
  · rintro ⟨m, hm⟩
    exact ⟨m, line_check_eq_some.mp hm⟩
  · rintro ⟨m, hm⟩
    exact ⟨m, line_check_eq_some.mpr hm⟩

lemma calculate_winner_isSome_iff {b : Board} :
    (_calculate_winner b).isSome = true ↔ ∃ l ∈ win_lines, line_complete b l := by
  unfold _calculate_winner
  rw [List.findSome?_isSome_iff]
  constructor
  · rintro ⟨l, hl, hs⟩
    exact ⟨l, hl, line_check_isSome.mp hs⟩
  · rintro ⟨l, hl, hc⟩
    exact ⟨l, hl, line_check_isSome.mpr hc⟩

lemma calculate_winner_eq_some {b : Board} {m : Mark}
    (h : _calculate_winner b = some m) :
    ∃ l ∈ win_lines, b l.1 = some m ∧ b l.2.1 = some m ∧ b l.2.2 = some m := by
  obtain ⟨l, hl, hc⟩ := List.exists_of_findSome?_eq_some h
  exact ⟨l, hl, line_check_eq_some.mp hc⟩

lemma is_draw_iff {b : Board} :
    _is_draw b = true ↔ ∀ i, (b i).isSome = true := by
  unfold _is_draw
  simp [List.all_eq_true, List.mem_finRange]

lemma count_marks_le {b : Board} : count_marks b ≤ 9 := by
  unfold count_marks
  calc (Finset.univ.filter (fun i : Fin 9 => (b i).isSome = true)).card
      ≤ (Finset.univ : Finset (Fin 9)).card := Finset.card_filter_le _ _
    _ = 9 := by simp

lemma count_marks_empty : count_marks (fun _ => none) = 0 := by
  unfold count_marks
  simp

lemma count_marks_update {b : Board} {pos : Fin 9} {p : Mark}
    (h : b pos = none) :
    count_marks (Function.update b pos (some p)) = count_marks b + 1 := by
  unfold count_marks
  have hset :
      Finset.univ.filter
          (fun i : Fin 9 => ((Function.update b pos (some p)) i).isSome = true)
        = insert pos
            (Finset.univ.filter (fun i : Fin 9 => (b i).isSome = true)) := by
    ext i
    by_cases hip : i = pos
    · subst hip
      simp [Function.update_same]
    · simp [Function.update_noteq hip, hip]
  rw [hset, Finset.card_insert_of_not_mem]
  simp [h]

/-- Unfolding an accepted move: the input game was not terminal, the mark
belonged to the player on turn, the cell was empty, and the result is the
winner-branch or the no-winner-branch state of `make_move`. -/
lemma make_move_ok_elim {g g1 : GameState} {pos : Fin 9} {p : Mark}
    (h : make_move g pos p = .ok g1) :
    g.winner = none ∧ g.is_draw = false ∧ p = g.current_player ∧
    g.board pos = none ∧
    ((∃ w, _calculate_winner (Function.update g.board pos (some p)) = some w ∧
        g1 = { g with
                 board := Function.update g.board pos (some p)
                 moves_count := g.moves_count + 1
                 winner := some w
                 is_draw := false }) ∨
     (_calculate_winner (Function.update g.board pos (some p)) = none ∧
        g1 = { g with
                 board := Function.update g.board pos (some p)
                 moves_count := g.moves_count + 1
                 is_draw := _is_draw (Function.update g.board pos (some p))
                 current_player :=
                   if _is_draw (Function.update g.board pos (some p))
                   then g.current_player
                   else if g.current_player = Mark.X then Mark.O else Mark.X })) := by
  unfold make_move at h
  split at h
  · cases h
  next hterm =>
    split at h
    · cases h
    next hturn =>
      split at h
      · cases h
      next hocc =>
        simp only [Bool.or_eq_true, not_or, Bool.not_eq_true] at hterm
        refine ⟨?_, hterm.2, not_not.mp hturn, ?_, ?_⟩
        · cases hw : g.winner with
          | none => rfl
          | some m => rw [hw] at hterm; cases hterm.1
        · cases hb : g.board pos with
          | none => rfl
          | some m => rw [hb] at hocc; cases hocc rfl
        · split at h
          next w hw =>
            cases h
            exact .inl ⟨w, hw, rfl⟩
          next hw =>
            cases h
            exact .inr ⟨hw, rfl⟩

/-- A terminal game rejects every move with `AlreadyFinished`. -/
lemma make_move_terminal {g : GameState} (pos : Fin 9) (p : Mark)
    (h : g.terminal) :
    make_move g pos p = .error .AlreadyFinished := by
  unfold make_move
  rw [if_pos]
  rcases h with h | h
  · simp [h]
  · simp [h]

/-- C1: after every accepted move the resulting state has `winner` set iff
one of the 8 winning lines of `win_lines` is fully occupied by a single
mark on the resulting board; when `winner` is set it is the mark of such a
line and `is_draw` is false. -/
theorem make_move_winner_characterization {g g1 : GameState} {pos : Fin 9}
    {p : Mark} (h : make_move g pos p = .ok g1) :
    (g1.winner.isSome = true ↔ ∃ l ∈ win_lines, line_complete g1.board l) ∧
    (∀ m, g1.winner = some m →
        ∃ l ∈ win_lines,
          g1.board l.1 = some m ∧ g1.board l.2.1 = some m ∧
          g1.board l.2.2 = some m) ∧
    (g1.winner.isSome = true → g1.is_draw = false) := by
  obtain ⟨hw, hd, hp, hb, hcase⟩ := make_move_ok_elim h
  rcases hcase with ⟨w, hcw, rfl⟩ | ⟨hcw, rfl⟩
  · refine ⟨?_, ?_, ?_⟩
    · constructor
      · intro _
        obtain ⟨l, hl, h1, h2, h3⟩ := calculate_winner_eq_some hcw
        exact ⟨l, hl, w, h1, h2, h3⟩
      · intro _
        rfl
    · intro m hm
      have hwm : w = m := by
        have : some w = some m := hm
        cases this
        rfl
      subst hwm
      exact calculate_winner_eq_some hcw
    · intro _
      rfl
  · refine ⟨?_, ?_, ?_⟩
    · dsimp only
      rw [hw]
      constructor
      · intro hcon
        cases hcon
      · intro hex
        have hs : (_calculate_winner
            (Function.update g.board pos (some p))).isSome = true :=
          calculate_winner_isSome_iff.mpr hex
        rw [hcw] at hs
        cases hs
    · intro m hm
      dsimp only at hm
      rw [hw] at hm
      cases hm
    · intro hs
      dsimp only at hs
      rw [hw] at hs
      cases hs

/-- C2: in every reachable state, `winner` set and `is_draw` never hold
together, and `is_draw` holds only when all 9 cells are occupied and
`winner` is absent. -/
theorem reachable_winner_draw_exclusive {g : GameState} (h : Reachable g) :
    ¬(g.winner.isSome = true ∧ g.is_draw = true) ∧
    (g.is_draw = true → (∀ i, (g.board i).isSome = true) ∧ g.winner = none) := by
  induction h with
  | create gid fp =>
      constructor
      · rintro ⟨-, hdd⟩
        cases hdd
      · intro hdd
        cases hdd
  | @move g g1 pos p hr hm ih =>
      obtain ⟨hw, hd, hp, hb, hcase⟩ := make_move_ok_elim hm
      rcases hcase with ⟨w, hcw, rfl⟩ | ⟨hcw, rfl⟩
      · constructor
        · rintro ⟨-, hdd⟩
          cases hdd
        · intro hdd
          cases hdd
      · constructor
        · rintro ⟨hws, -⟩
          dsimp only at hws
          rw [hw] at hws
          cases hws
        · intro hdd
          dsimp only at hdd
          exact ⟨fun i => (is_draw_iff.mp hdd) i, hw⟩
  | @reset g hr ih =>
      constructor
      · rintro ⟨-, hdd⟩
        cases hdd
      · intro hdd
        cases hdd

/-- C3: in every reachable state, `moves_count` equals the number of
non-empty cells of the board, and hence is at most 9. -/
theorem reachable_moves_count {g : GameState} (h : Reachable g) :
    g.moves_count = count_marks g.board ∧ g.moves_count ≤ 9 := by
  induction h with
  | create gid fp =>
      constructor
      · show 0 = count_marks (fun _ => none)
        rw [count_marks_empty]
      · show 0 ≤ 9
        omega
  | @move g g1 pos p hr hm ih =>
      obtain ⟨hw, hd, hp, hb, hcase⟩ := make_move_ok_elim hm
      have hcount :
          count_marks (Function.update g.board pos (some p))
            = count_marks g.board + 1 := count_marks_update hb
      have hle : count_marks (Function.update g.board pos (some p)) ≤ 9 :=
        count_marks_le
      rcases hcase with ⟨w, hcw, rfl⟩ | ⟨hcw, rfl⟩ <;>
        exact ⟨by dsimp only; rw [hcount, ih.1],
               by dsimp only; rw [ih.1]; omega⟩
  | @reset g hr ih =>
      constructor
      · show 0 = count_marks (fun _ => none)
        rw [count_marks_empty]
      · show 0 ≤ 9
        omega

/-- C6, counterexample: the spec's scenario does NOT end in a draw with no
winner — in it X plays 0, 2, 4, 7 and 8, so the final move completes the
0-4-8 diagonal. -/
theorem draw_scenario_not_draw :
    ¬ ((apply_moves (create_game "game0" Mark.X) draw_sequence).map
        (fun g => (g.is_draw, g.winner)) = .ok (true, none)) := by
  intro h
  rw [show (apply_moves (create_game "game0" Mark.X) draw_sequence).map
        (fun g => (g.is_draw, g.winner))
      = Except.ok ((false : Bool), some Mark.X) from rfl] at h
  simp at h

/-- C6, amended: the nine moves X:0, O:1, X:2, O:3, X:4, O:5, X:7, O:6,
X:8 from a fresh game with first player X are all accepted, and the final
state has winner X (the 0-4-8 diagonal), `is_draw` false, 9 moves. -/
theorem draw_scenario_actual :
    (apply_moves (create_game "game0" Mark.X) draw_sequence).map
      (fun g => (g.is_draw, g.winner, g.moves_count)) =
      .ok (false, some Mark.X, 9) := by
  rfl

/-- C7: reset always succeeds and yields an empty board, current player X,
no winner, no draw, zero moves, with the game id preserved. -/
theorem reset_game_spec (g : GameState) :
    (reset_game g).game_id = g.game_id ∧
    (∀ i, (reset_game g).board i = none) ∧
    (reset_game g).current_player = Mark.X ∧
    (reset_game g).winner = none ∧
    (reset_game g).is_draw = false ∧
    (reset_game g).moves_count = 0 :=
  ⟨rfl, fun _ => rfl, rfl, rfl, rfl, rfl⟩

/-- C8: create always succeeds and yields an empty board, the requested
starting mark as current player, no winner, no draw, zero moves. -/
theorem create_game_spec (gid : String) (first : Mark) :
    (create_game gid first).game_id = gid ∧
    (∀ i, (create_game gid first).board i = none) ∧
    (create_game gid first).current_player = first ∧
    (create_game gid first).winner = none ∧
    (create_game gid first).is_draw = false ∧
    (create_game gid first).moves_count = 0 :=
  ⟨rfl, fun _ => rfl, rfl, rfl, rfl, rfl⟩

/-! Store-level helper lemmas. -/

lemma not_terminal_guard {g : GameState} (h : ¬g.terminal) :
    (g.winner.isSome || g.is_draw) = false := by
  unfold GameState.terminal at h
  rw [not_or] at h
  simp only [Bool.or_eq_false_iff]
  constructor
  · exact Bool.not_eq_true _ ▸ h.1
  · exact Bool.not_eq_true _ ▸ h.2

/-- A non-terminal game rejects an out-of-turn move with `WrongTurn`. -/
lemma make_move_wrong_turn {g : GameState} (pos : Fin 9) {p : Mark}
    (hnt : ¬g.terminal) (hp : p ≠ g.current_player) :
    make_move g pos p = .error .WrongTurn := by
  unfold make_move
  rw [not_terminal_guard hnt]
  simp only [Bool.false_eq_true, if_false]
  rw [if_pos hp]

/-- A non-terminal game rejects an on-turn move at an occupied cell with
`CellOccupied`. -/
lemma make_move_cell_occupied {g : GameState} {pos : Fin 9} {p : Mark}
    (hnt : ¬g.terminal) (hp : p = g.current_player)
    (hocc : (g.board pos).isSome = true) :
    make_move g pos p = .error .CellOccupied := by
  unfold make_move
  rw [not_terminal_guard hnt]
  simp only [Bool.false_eq_true, if_false]
  rw [if_neg (fun hne => hne hp), if_pos hocc]

/-- Unfolding `handle_move` when the id resolves. -/
lemma handle_move_some {games : Store} {game_id : String} {g : GameState}
    (req : MoveRequest) (hg : games game_id = some g) :
    handle_move games game_id req =
      match make_move g req.position req.player with
      | .error e => (.error e, games)
      | .ok g1 => (.ok g1, games.put game_id g1) := by
  unfold handle_move
  rw [hg]

/-- `handle_move` on an unknown id fails with `NotFound` and leaves the
store unchanged. -/
lemma handle_move_not_found {games : Store} {game_id : String}
    (req : MoveRequest) (hg : games game_id = none) :
    handle_move games game_id req = (.error .NotFound, games) := by
  unfold handle_move
  rw [hg]

/-- Any failing `handle_move` leaves the store unchanged. -/
lemma handle_move_error_store {games : Store} {game_id : String}
    {req : MoveRequest} {e : MoveError} {games1 : Store}
    (h : handle_move games game_id req = (.error e, games1)) :
    games1 = games := by
  unfold handle_move at h
  split at h
  · rw [Prod.mk.injEq] at h
    exact h.2.symm
  · split at h
    · rw [Prod.mk.injEq] at h
      exact h.2.symm
    · rw [Prod.mk.injEq] at h
      cases h.1

/-- C4: a failing move request never changes the store, and a move on a
terminal game always fails with `AlreadyFinished`, changing nothing. -/
theorem handle_move_failure_preserves_state :
    (∀ (games : Store) (game_id : String) (req : MoveRequest)
        (e : MoveError) (games1 : Store),
        handle_move games game_id req = (.error e, games1) → games1 = games) ∧
    (∀ (games : Store) (game_id : String) (req : MoveRequest) (g : GameState),
        games game_id = some g → g.terminal →
        handle_move games game_id req = (.error .AlreadyFinished, games)) := by
  constructor
  · intro games game_id req e games1 h
    exact handle_move_error_store h
  · intro games game_id req g hg hterm
    rw [handle_move_some req hg, make_move_terminal req.position req.player hterm]

/-- C4 witness: on a store whose game has winner X, the move X at 0 fails
with `AlreadyFinished` and the store is returned unchanged. -/
theorem handle_move_failure_preserves_state_witness :
    handle_move ex_store_won "g1" ⟨0, Mark.X⟩ =
      (.error .AlreadyFinished, ex_store_won) :=
  handle_move_failure_preserves_state.2 ex_store_won "g1" ⟨0, Mark.X⟩
    ex_game_won rfl (Or.inl rfl)

/-- C5, counterexample: `ex_game` has current player X and the accepted
winning move X at cell 2 leaves `current_player` at X rather than
alternating it to O. -/
theorem current_player_not_alternating :
    ex_game.current_player = Mark.X ∧
    (make_move ex_game (2 : Fin 9) Mark.X).map (fun g => g.current_player)
      = .ok Mark.X ∧
    ¬ ((make_move ex_game (2 : Fin 9) Mark.X).map (fun g => g.current_player)
      = .ok Mark.O) := by
  refine ⟨rfl, rfl, ?_⟩
  intro h
  rw [show (make_move ex_game (2 : Fin 9) Mark.X).map (fun g => g.current_player)
      = Except.ok Mark.X from rfl] at h
  exact Mark.noConfusion (Except.ok.inj h)

/-- C5, amended: an accepted move alternates `current_player` exactly when
the resulting state is non-terminal; an accepted game-ending move leaves
it unchanged, and a rejected move changes nothing in the store. -/
theorem current_player_alternation :
    (∀ (g g1 : GameState) (pos : Fin 9) (p : Mark),
        make_move g pos p = .ok g1 →
        (g1.winner = none ∧ g1.is_draw = false →
            g1.current_player =
              (if g.current_player = Mark.X then Mark.O else Mark.X)) ∧
        ((g1.winner.isSome = true ∨ g1.is_draw = true) →
            g1.current_player = g.current_player)) ∧
    (∀ (games : Store) (game_id : String) (req : MoveRequest)
        (e : MoveError) (games1 : Store),
        handle_move games game_id req = (.error e, games1) → games1 = games) := by
  constructor
  · intro g g1 pos p h
    obtain ⟨hw, hd, hp, hb, hcase⟩ := make_move_ok_elim h
    rcases hcase with ⟨w, hcw, rfl⟩ | ⟨hcw, rfl⟩
    · constructor
      · rintro ⟨h1, -⟩
        dsimp only at h1
        cases h1
      · intro _
        rfl
    · constructor
      · rintro ⟨-, h2⟩
        dsimp only at h2 ⊢
        rw [h2]
        simp
      · intro hterm
        rcases hterm with hws | hdd
        · dsimp only at hws
          rw [hw] at hws
          cases hws
        · dsimp only at hdd ⊢
          rw [hdd]
          simp
  · intro games game_id req e games1 h
    exact handle_move_error_store h

/-- C5 amended witness: from a fresh game with first player X, the
accepted non-terminal move X at 0 alternates the turn to O. -/
theorem current_player_alternation_witness :
    ex_first_move.current_player =
      (if (create_game "w5" Mark.X).current_player = Mark.X
       then Mark.O else Mark.X) :=
  (current_player_alternation.1 (create_game "w5" Mark.X) ex_first_move
    0 Mark.X rfl).1 ⟨rfl, rfl⟩

/-- C9: a move request whose position is outside 0..8 is rejected by the
boundary validation with `OutOfRange` before reaching the store or the
engine, the store is unchanged, and the error carries the same 400 status
as wrong turn and occupied cell. -/
theorem out_of_range_rejected (games : Store) (game_id : String)
    (position : Int) (player : Mark)
    (h : ¬(0 ≤ position ∧ position ≤ 8)) :
    parse_move position player = .error .OutOfRange ∧
    api_make_move games game_id position player =
      (.error .OutOfRange, games) ∧
    status_code .OutOfRange = 400 ∧
    status_code .OutOfRange = status_code .WrongTurn ∧
    status_code .OutOfRange = status_code .CellOccupied := by
  have hp : parse_move position player = .error .OutOfRange := by
    unfold parse_move
    rw [dif_neg h]
  refine ⟨hp, ?_, rfl, rfl, rfl⟩
  unfold api_make_move
  rw [hp]

/-- C9 witness: position 9 is rejected with `OutOfRange` on the empty
store. -/
theorem out_of_range_rejected_witness :
    parse_move 9 Mark.X = .error .OutOfRange ∧
    api_make_move empty_store "w9" 9 Mark.X =
      (.error .OutOfRange, empty_store) ∧
    status_code .OutOfRange = 400 ∧
    status_code .OutOfRange = status_code .WrongTurn ∧
    status_code .OutOfRange = status_code .CellOccupied :=
  out_of_range_rejected empty_store "w9" 9 Mark.X (by decide)

/-- C10: the validation order of a move request: unknown id (`NotFound`)
is checked before terminal game (`AlreadyFinished`), before turn
(`WrongTurn`), before cell occupancy (`CellOccupied`); in particular a
wrong-turn move aimed at an occupied cell fails with `WrongTurn`. -/
theorem move_error_priority :
    (∀ (games : Store) (game_id : String) (req : MoveRequest),
        games game_id = none →
        handle_move games game_id req = (.error .NotFound, games)) ∧
    (∀ (games : Store) (game_id : String) (req : MoveRequest) (g : GameState),
        games game_id = some g → g.terminal →
        handle_move games game_id req = (.error .AlreadyFinished, games)) ∧
    (∀ (games : Store) (game_id : String) (req : MoveRequest) (g : GameState),
        games game_id = some g → ¬g.terminal →
        req.player ≠ g.current_player →
        handle_move games game_id req = (.error .WrongTurn, games)) ∧
    (∀ (games : Store) (game_id : String) (req : MoveRequest) (g : GameState),
        games game_id = some g → ¬g.terminal →
        req.player = g.current_player → (g.board req.position).isSome = true →
        handle_move games game_id req = (.error .CellOccupied, games)) := by
  refine ⟨?_, ?_, ?_, ?_⟩
  · intro games game_id req hg
    exact handle_move_not_found req hg
  · intro games game_id req g hg hterm
    rw [handle_move_some req hg, make_move_terminal req.position req.player hterm]
  · intro games game_id req g hg hnt hp
    rw [handle_move_some req hg, make_move_wrong_turn req.position hnt hp]
  · intro games game_id req g hg hnt hp hocc
    rw [handle_move_some req hg, make_move_cell_occupied hnt hp hocc]

/-- C10 witness: on a store holding the non-terminal `ex_game` (current
player X, cell 0 occupied), the request O at 0 — wrong turn AND occupied
cell — fails with `WrongTurn`. -/
theorem move_error_priority_witness :
    handle_move ex_store_mid "g1" ⟨0, Mark.O⟩ =
      (.error .WrongTurn, ex_store_mid) :=
  move_error_priority.2.2.1 ex_store_mid "g1" ⟨0, Mark.O⟩ ex_game rfl
    (by decide) (by decide)

/-- C1 witness: the accepted winning move X at cell 2 from `ex_game`
yields `ex_game_won`, whose winner characterization is an instance of the
theorem. -/
theorem make_move_winner_characterization_witness :
    (ex_game_won.winner.isSome = true ↔
        ∃ l ∈ win_lines, line_complete ex_game_won.board l) ∧
    (∀ m, ex_game_won.winner = some m →
        ∃ l ∈ win_lines,
          ex_game_won.board l.1 = some m ∧ ex_game_won.board l.2.1 = some m ∧
          ex_game_won.board l.2.2 = some m) ∧
    (ex_game_won.winner.isSome = true → ex_game_won.is_draw = false) :=
  @make_move_winner_characterization ex_game ex_game_won 2 Mark.X rfl

/-- C2 witness: the freshly created game is reachable and satisfies the
winner/draw exclusivity invariant. -/
theorem reachable_winner_draw_exclusive_witness :
    ¬((create_game "w2" Mark.X).winner.isSome = true ∧
        (create_game "w2" Mark.X).is_draw = true) ∧
    ((create_game "w2" Mark.X).is_draw = true →
        (∀ i, ((create_game "w2" Mark.X).board i).isSome = true) ∧
        (create_game "w2" Mark.X).winner = none) :=
  reachable_winner_draw_exclusive (Reachable.create "w2" Mark.X)

/-- C3 witness: the freshly created game is reachable and satisfies the
`moves_count` invariant. -/
theorem reachable_moves_count_witness :
    (create_game "w3" Mark.X).moves_count =
      count_marks (create_game "w3" Mark.X).board ∧
    (create_game "w3" Mark.X).moves_count ≤ 9 :=
  reachable_moves_count (Reachable.create "w3" Mark.X)
